import Mathlib

/-!
Verification of the pyRenogy protocol engine against its design spec.

Shallow embedding of `pyrenogy/client.py`, `pyrenogy/exceptions.py` and
`pyrenogy/registers.py`. Python `bytes` are modelled as `List Nat` (every
element a byte value 0..255 on real wires), machine integers as `Nat` with
explicit masking where the source masks, Python floats produced by
`raw * scale` as exact rationals (`ℚ`), and the blocking serial transport as
an explicit list of bytes that successive `read(n)` calls consume from.
Fallible operations return `Except`.
-/

set_option maxRecDepth 8192
set_option linter.unusedVariables false

namespace PyRenogy

/-- CRC-16/MODBUS lookup table, transcribed from `CRC_TABLE` in client.py
(256 entries, precomputed for reflected polynomial 0xA001). -/
def CRC_TABLE : List Nat := [
  0x0000, 0xC0C1, 0xC181, 0x0140, 0xC301, 0x03C0, 0x0280, 0xC241,
  0xC601, 0x06C0, 0x0780, 0xC741, 0x0500, 0xC5C1, 0xC481, 0x0440,
  0xCC01, 0x0CC0, 0x0D80, 0xCD41, 0x0F00, 0xCFC1, 0xCE81, 0x0E40,
  0x0A00, 0xCAC1, 0xCB81, 0x0B40, 0xC901, 0x09C0, 0x0880, 0xC841,
  0xD801, 0x18C0, 0x1980, 0xD941, 0x1B00, 0xDBC1, 0xDA81, 0x1A40,
  0x1E00, 0xDEC1, 0xDF81, 0x1F40, 0xDD01, 0x1DC0, 0x1C80, 0xDC41,
  0x1400, 0xD4C1, 0xD581, 0x1540, 0xD701, 0x17C0, 0x1680, 0xD641,
  0xD201, 0x12C0, 0x1380, 0xD341, 0x1100, 0xD1C1, 0xD081, 0x1040,
  0xF001, 0x30C0, 0x3180, 0xF141, 0x3300, 0xF3C1, 0xF281, 0x3240,
  0x3600, 0xF6C1, 0xF781, 0x3740, 0xF501, 0x35C0, 0x3480, 0xF441,
  0x3C00, 0xFCC1, 0xFD81, 0x3D40, 0xFF01, 0x3FC0, 0x3E80, 0xFE41,
  0xFA01, 0x3AC0, 0x3B80, 0xFB41, 0x3900, 0xF9C1, 0xF881, 0x3840,
  0x2800, 0xE8C1, 0xE981, 0x2940, 0xEB01, 0x2BC0, 0x2A80, 0xEA41,
  0xEE01, 0x2EC0, 0x2F80, 0xEF41, 0x2D00, 0xEDC1, 0xEC81, 0x2C40,
  0xE401, 0x24C0, 0x2580, 0xE541, 0x2700, 0xE7C1, 0xE681, 0x2640,
  0x2200, 0xE2C1, 0xE381, 0x2340, 0xE101, 0x21C0, 0x2080, 0xE041,
  0xA001, 0x60C0, 0x6180, 0xA141, 0x6300, 0xA3C1, 0xA281, 0x6240,
  0x6600, 0xA6C1, 0xA781, 0x6740, 0xA501, 0x65C0, 0x6480, 0xA441,
  0x6C00, 0xACC1, 0xAD81, 0x6D40, 0xAF01, 0x6FC0, 0x6E80, 0xAE41,
  0xAA01, 0x6AC0, 0x6B80, 0xAB41, 0x6900, 0xA9C1, 0xA881, 0x6840,
  0x7800, 0xB8C1, 0xB981, 0x7940, 0xBB01, 0x7BC0, 0x7A80, 0xBA41,
  0xBE01, 0x7EC0, 0x7F80, 0xBF41, 0x7D00, 0xBDC1, 0xBC81, 0x7C40,
  0xB401, 0x74C0, 0x7580, 0xB541, 0x7700, 0xB7C1, 0xB681, 0x7640,
  0x7200, 0xB2C1, 0xB381, 0x7340, 0xB101, 0x71C0, 0x7080, 0xB041,
  0x5000, 0x90C1, 0x9181, 0x5140, 0x9301, 0x53C0, 0x5280, 0x9241,
  0x9601, 0x56C0, 0x5780, 0x9741, 0x5500, 0x95C1, 0x9481, 0x5440,
  0x9C01, 0x5CC0, 0x5D80, 0x9D41, 0x5F00, 0x9FC1, 0x9E81, 0x5E40,
  0x5A00, 0x9AC1, 0x9B81, 0x5B40, 0x9901, 0x59C0, 0x5880, 0x9841,
  0x8801, 0x48C0, 0x4980, 0x8941, 0x4B00, 0x8BC1, 0x8A81, 0x4A40,
  0x4E00, 0x8EC1, 0x8F81, 0x4F40, 0x8D01, 0x4DC0, 0x4C80, 0x8C41,
  0x4400, 0x84C1, 0x8581, 0x4540, 0x8701, 0x47C0, 0x4680, 0x8641,
  0x8201, 0x42C0, 0x4380, 0x8341, 0x4100, 0x81C1, 0x8081, 0x4040]

/-- One iteration of the CRC loop body in `calculate_crc16`:
`crc = (crc >> 8) ^ CRC_TABLE[(crc ^ byte) & 0xFF]`. -/
def crcStep (crc byte : Nat) : Nat :=
  (crc >>> 8) ^^^ CRC_TABLE.getD ((crc ^^^ byte) &&& 0xFF) 0

/-- `calculate_crc16(data)` from client.py: accumulator starts at 0xFFFF and
folds `crcStep` over the input bytes. -/
def calculate_crc16 (data : List Nat) : Nat :=
  data.foldl crcStep 0xFFFF

/-- `struct.pack("<H", c)`: a 16-bit value as two little-endian bytes.
For `c < 65536` (which `struct.pack` requires) this is `[c % 256, c / 256]`. -/
def le16 (c : Nat) : List Nat := [c % 256, c / 256 % 256]

/-- `struct.pack(">H", w)`: a 16-bit value as two big-endian bytes. -/
def be16 (w : Nat) : List Nat := [w / 256 % 256, w % 256]

/-- `verify_crc(data)` from client.py: `False` when `len(data) < 3`; otherwise
recompute the CRC of `data[:-2]` and compare with the little-endian 16-bit
checksum `struct.unpack("<H", data[-2:])`. -/
def verify_crc (data : List Nat) : Bool :=
  if data.length < 3 then false
  else
    (data.drop (data.length - 2)).getD 0 0
        + 256 * (data.drop (data.length - 2)).getD 1 0
      == calculate_crc16 (data.take (data.length - 2))

/-! Exceptions (`pyrenogy/exceptions.py`).  Only the errors `_send_request`
can produce are modelled; `ModbusError` carries its message, masked function
code and exception code.  An out-of-range list index in Python raises
`IndexError`; it is modelled as `indexError` where the source lets it
propagate. -/

deriving instance DecidableEq for Except

/-- Errors raised on the transaction paths of client.py. -/
inductive RError where
  | timeout : RError
  | crc : RError
  | modbus (message : String) (function_code : Nat) (exception_code : Nat) : RError
  | indexError : RError
deriving DecidableEq, Repr

/-- Uppercase hex digit for a value 0..15, as Python `"%X"` renders it. -/
def hexDigit (n : Nat) : Char :=
  if n < 10 then Char.ofNat (48 + n) else Char.ofNat (55 + n)

/-- Python `f"0x{code:02X}"` body for a byte value: exactly two uppercase hex
digits (codes come from a single response byte, so they are below 256). -/
def toHex2 (n : Nat) : String :=
  String.mk [hexDigit (n / 16 % 16), hexDigit (n % 16)]

/-- `get_modbus_exception_message` from exceptions.py: the
`MODBUS_EXCEPTION_CODES` table lookup with the formatted fallback.  The
Python dict `.get` is modelled as the equivalent chain of equality tests. -/
def get_modbus_exception_message (code : Nat) : String :=
  if code = 0x01 then "Illegal Function"
  else if code = 0x02 then "Illegal Data Address"
  else if code = 0x03 then "Illegal Data Value"
  else if code = 0x04 then "Slave Device Failure"
  else if code = 0x05 then "Acknowledge"
  else if code = 0x06 then "Slave Device Busy"
  else if code = 0x08 then "Memory Parity Error"
  else if code = 0x0A then "Gateway Path Unavailable"
  else if code = 0x0B then "Gateway Target Device Failed to Respond"
  else "Unknown Exception (0x" ++ toHex2 code ++ ")"

/-! Frame codec and transaction engine (`client.py`).  The serial transport
is a list of the bytes the device sends back; `serial.read(n)` returns up to
`n` bytes, i.e. takes `min n available` and leaves the rest buffered. -/

/-- `serial.read(n)` on a buffered byte stream: the bytes obtained and the
bytes still buffered. -/
def sread (n : Nat) (rx : List Nat) : List Nat × List Nat :=
  (rx.take n, rx.drop n)

/-- `RenogyClient._build_request(function_code, start_address, count)`:
`struct.pack(">BBHH", device_id, function_code, start_address, count)`
followed by the frame's CRC-16 appended little-endian.  `struct.pack`
rejects out-of-range inputs, so on its domain (`device_id`, `function_code`
below 256 and the 16-bit fields below 65536) the masks here are the
identity. -/
def build_request (device_id function_code start_address count : Nat) :
    List Nat :=
  let frame : List Nat :=
    [device_id % 256, function_code % 256,
     start_address / 256 % 256, start_address % 256,
     count / 256 % 256, count % 256]
  frame ++ le16 (calculate_crc16 frame)

/-- `RenogyClient._send_request` from client.py, response side: read a 3-byte
header (timeout when fewer than 3 bytes arrive); when the function code has
its 0x80 bit set, read (and discard) the 2 checksum bytes and fail with the
mapped Modbus exception; otherwise read `byte_count + 2` more bytes (timeout
when fewer arrive), verify the CRC of header+payload+checksum (CRC error on
mismatch) and return the `byte_count` payload bytes.  The result is paired
with the bytes left unconsumed on the transport.  The connection check,
input-buffer flush, request write and settling sleep of the source touch no
response byte and have no observable effect in this model. -/
def sendRequest (rx : List Nat) : Except RError (List Nat) × List Nat :=
  let (header, rx1) := sread 3 rx
  if header.length < 3 then (.error .timeout, rx1)
  else
    let function_code := header.getD 1 0
    let byte_count := header.getD 2 0
    if function_code &&& 0x80 ≠ 0 then
      let (_crc_bytes, rx2) := sread 2 rx1
      (.error (.modbus (get_modbus_exception_message byte_count)
        (function_code &&& 0x7F) byte_count), rx2)
    else
      let (remaining, rx2) := sread (byte_count + 2) rx1
      if remaining.length < byte_count + 2 then (.error .timeout, rx2)
      else if verify_crc (header ++ remaining) then
        (.ok (remaining.take byte_count), rx2)
      else (.error .crc, rx2)

/-- The register-value loop of `RenogyClient.read_registers`: the payload as
big-endian 16-bit words via `struct.unpack(">H", data[i:i+2])`.  The source
raises `struct.error` on a dangling odd byte; response payloads are
word-aligned, and the model ignores a dangling byte. -/
def parseWords : List Nat → List Nat
  | a :: b :: rest => (a * 256 + b) :: parseWords rest
  | _ => []

/-- `RenogyClient.read_registers(start_address, count)`: send the
read-holding-registers request `build_request device_id 0x03 start_address
count`, run the transaction and unpack the payload into words.  The request
frame is written to the transport and read by the device; the response
bytes `rx` are the device's answer, so the response path modelled here does
not depend on the frame's bytes. -/
def read_registers (device_id start_address count : Nat) (rx : List Nat) :
    Except RError (List Nat) × List Nat :=
  let r := sendRequest rx
  (r.1.map parseWords, r.2)

/-- A well-formed read response for register values `vs`: device id,
function code, byte count `2 * len(vs)`, the values as big-endian words, and
the CRC of all that appended little-endian. -/
def mkReadResponse (device_id function_code : Nat) (vs : List Nat) :
    List Nat :=
  let body : List Nat :=
    [device_id, function_code, 2 * vs.length] ++ (vs.map be16).flatten
  body ++ le16 (calculate_crc16 body)

/-! Reading assembler (`RenogyClient.read_realtime_data`,
`RenogyClient.get_load_state`).  Python floats produced by `raw * scale`
are modelled as exact rationals; integer fields stay `Nat`/`Int` as the
source assigns plain ints.  The flat structure below carries the fields of
`RenogyReading.battery/controller/load/solar` that this method sets; the
timestamp and the cached-device-info attachment are orthogonal to decoding
and not modelled. -/

/-- The fields of a `RenogyReading` that `read_realtime_data` decodes. -/
structure RealtimeReading where
  state_of_charge : Nat
  battery_voltage : ℚ
  charging_current : ℚ
  controller_temperature : Int
  battery_temperature : Int
  load_voltage : ℚ
  load_current : ℚ
  load_power : Nat
  solar_voltage : ℚ
  solar_current : ℚ
  solar_power : Nat
  load_is_on : Bool
deriving DecidableEq, Repr

/-- High byte of the packed temperature word:
`(temp_reg >> 8) & 0xFF` in the source. -/
def controller_temp_raw (w : Nat) : Nat := (w >>> 8) &&& 0xFF

/-- Low byte of the packed temperature word: `temp_reg & 0xFF`. -/
def battery_temp_raw (w : Nat) : Nat := w &&& 0xFF

/-- The signed-temperature fixup of the source:
`if t > 127: t -= 256`. -/
def toSigned8 (b : Nat) : Int :=
  if b > 127 then (b : Int) - 256 else (b : Int)

/-- The field assignments of `read_realtime_data` on an 11-word block
`data`, exactly as the source scales and splits them. -/
def decodeRealtime (data : List Nat) : RealtimeReading :=
  { state_of_charge := data.getD 0 0
    battery_voltage := (data.getD 1 0 : ℚ) * (1 / 10)
    charging_current := (data.getD 2 0 : ℚ) * (1 / 100)
    controller_temperature := toSigned8 (controller_temp_raw (data.getD 3 0))
    battery_temperature := toSigned8 (battery_temp_raw (data.getD 3 0))
    load_voltage := (data.getD 4 0 : ℚ) * (1 / 10)
    load_current := (data.getD 5 0 : ℚ) * (1 / 100)
    load_power := data.getD 6 0
    solar_voltage := (data.getD 7 0 : ℚ) * (1 / 10)
    solar_current := (data.getD 8 0 : ℚ) * (1 / 100)
    solar_power := data.getD 9 0
    load_is_on := data.getD 10 0 == 1 }

/-- `RenogyClient.read_realtime_data`: read 11 registers from 0x0100 and
decode them.  Indexing `data[10]` on a short block raises `IndexError`,
which the method's `except` clause re-raises. -/
def read_realtime_data (device_id : Nat) (rx : List Nat) :
    Except RError RealtimeReading × List Nat :=
  let r := read_registers device_id 0x0100 11 rx
  (r.1.bind fun vs =>
    if vs.length < 11 then .error .indexError
    else .ok (decodeRealtime vs), r.2)

/-- `RenogyClient.get_load_state`: read one register at 0x010A and compare
the word with 1.  `data[0]` on an empty block raises `IndexError`. -/
def get_load_state (device_id : Nat) (rx : List Nat) :
    Except RError Bool × List Nat :=
  let r := read_registers device_id 0x010A 1 rx
  (r.1.bind fun vs =>
    if vs.length < 1 then .error .indexError
    else .ok (vs.getD 0 0 == 1), r.2)

/-! Device information (`RenogyClient.read_device_info`). -/

/-- `DeviceInfo` from models.py: all fields default to the empty string. -/
structure DeviceInfo where
  model : String := ""
  serial_number : String := ""
  hardware_version : String := ""
  software_version : String := ""
deriving DecidableEq, Repr

/-- Python whitespace characters stripped by `str.strip()`. -/
def isPySpace (c : Char) : Bool :=
  c = ' ' ∨ c = '\t' ∨ c = '\n' ∨ c = '\r' ∨ c = '\x0b' ∨ c = '\x0c'

/-- Strip characters satisfying `p` from both ends, as Python `str.strip`
family does. -/
def stripBoth (p : Char → Bool) (cs : List Char) : List Char :=
  ((cs.dropWhile p).reverse.dropWhile p).reverse

/-- The string-field pipeline of `read_device_info`: pack each register word
big-endian into two bytes (`struct.pack(">H", v)`), concatenate, decode as
ASCII with invalid bytes dropped (`errors="ignore"`), strip NUL, then strip
whitespace. -/
def decodeStringField (vs : List Nat) : String :=
  let bs := (vs.map be16).flatten
  let chars := bs.filterMap fun b =>
    if b < 128 then some (Char.ofNat b) else none
  String.mk (stripBoth isPySpace (stripBoth (· = '\x00') chars))

/-- A version word rendered as `f"V{v >> 8}.{v & 0xFF}"`. -/
def versionString (v : Nat) : String :=
  "V" ++ toString (v >>> 8) ++ "." ++ toString (v &&& 0xFF)

/-- `RenogyClient.read_device_info`: three independent reads (model at
0x000C×8, serial at 0x0018×8, versions at 0x0014×4), each wrapped in its own
`try`/`except` that logs and leaves the field(s) at their default on any
failure.  Each transaction flushes the input buffer first, so each read is
given its own transport buffer.  In the version group the source assigns
`hardware_version` from `version_data[0]` before touching
`version_data[2]`, so a 1- or 2-word reply sets the hardware version and
leaves the software version at its default. -/
def read_device_info (device_id : Nat) (rxModel rxSerial rxVersion : List Nat) :
    DeviceInfo :=
  let model :=
    match (read_registers device_id 0x000C 8 rxModel).1 with
    | .ok vs => decodeStringField vs
    | .error _ => ""
  let serial :=
    match (read_registers device_id 0x0018 8 rxSerial).1 with
    | .ok vs => decodeStringField vs
    | .error _ => ""
  let versions :=
    match (read_registers device_id 0x0014 4 rxVersion).1 with
    | .ok vs =>
      if vs.length = 0 then ("", "")
      else if vs.length < 3 then (versionString (vs.getD 0 0), "")
      else (versionString (vs.getD 0 0), versionString (vs.getD 2 0))
    | .error _ => ("", "")
  { model := model, serial_number := serial,
    hardware_version := versions.1, software_version := versions.2 }

/-! Register map (`pyrenogy/registers.py`).  Each group is a Python dict
keyed by the entry's `name`; dicts preserve insertion order, so a group is
embedded as the list of its definitions in source order.  `register_type`
is `HOLDING` and `decoder` is `None` on every entry in the source, so those
two fields are not carried. -/

/-- `RegisterDefinition` from registers.py (defaults: length 1, scale 1.0,
unit "", unsigned). -/
structure RegisterDefinition where
  address : Nat
  name : String
  description : String
  length : Nat := 1
  scale : ℚ := 1
  unit : String := ""
  signed : Bool := false
deriving DecidableEq, Repr

/-- `DEVICE_INFO_REGISTERS`, in source (dict insertion) order. -/
def DEVICE_INFO_REGISTERS : List RegisterDefinition :=
  [{ address := 0x000C, name := "device_model",
     description := "Device Model/SKU", length := 8 },
   { address := 0x0018, name := "serial_number",
     description := "Device Serial Number", length := 8 },
   { address := 0x0014, name := "hardware_version",
     description := "Hardware Version", length := 2 },
   { address := 0x0016, name := "software_version",
     description := "Software Version", length := 2 }]

/-- `SCC_REGISTERS` (real-time telemetry), in source order. -/
def SCC_REGISTERS : List RegisterDefinition :=
  [{ address := 0x0100, name := "battery_soc",
     description := "Battery State of Charge", unit := "%" },
   { address := 0x0101, name := "battery_voltage",
     description := "Battery Voltage", scale := 1 / 10, unit := "V" },
   { address := 0x0102, name := "charging_current",
     description := "Battery Charging Current", scale := 1 / 100, unit := "A" },
   { address := 0x0103, name := "temperatures",
     description := "Controller and Battery Temperature", signed := true,
     unit := "°C" },
   { address := 0x0104, name := "load_voltage",
     description := "Load Voltage", scale := 1 / 10, unit := "V" },
   { address := 0x0105, name := "load_current",
     description := "Load Current", scale := 1 / 100, unit := "A" },
   { address := 0x0106, name := "load_power",
     description := "Load Power", unit := "W" },
   { address := 0x0107, name := "solar_voltage",
     description := "Solar Panel Voltage", scale := 1 / 10, unit := "V" },
   { address := 0x0108, name := "solar_current",
     description := "Solar Panel Current", scale := 1 / 100, unit := "A" },
   { address := 0x0109, name := "solar_power",
     description := "Solar Panel Power", unit := "W" }]

/-- `DAILY_STATS_REGISTERS`, in source order. -/
def DAILY_STATS_REGISTERS : List RegisterDefinition :=
  [{ address := 0x010B, name := "daily_min_battery_voltage",
     description := "Daily Minimum Battery Voltage", scale := 1 / 10,
     unit := "V" },
   { address := 0x010C, name := "daily_max_battery_voltage",
     description := "Daily Maximum Battery Voltage", scale := 1 / 10,
     unit := "V" },
   { address := 0x010D, name := "daily_max_charging_current",
     description := "Daily Maximum Charging Current", scale := 1 / 100,
     unit := "A" },
   { address := 0x010E, name := "daily_max_discharging_current",
     description := "Daily Maximum Discharging Current", scale := 1 / 100,
     unit := "A" },
   { address := 0x010F, name := "daily_max_charging_power",
     description := "Daily Maximum Charging Power", unit := "W" },
   { address := 0x0110, name := "daily_max_discharging_power",
     description := "Daily Maximum Discharging Power", unit := "W" },
   { address := 0x0111, name := "daily_charging_amp_hours",
     description := "Daily Charging Amp-hours", unit := "Ah" },
   { address := 0x0112, name := "daily_discharging_amp_hours",
     description := "Daily Discharging Amp-hours", unit := "Ah" },
   { address := 0x0113, name := "daily_power_generation",
     description := "Daily Power Generation", unit := "Wh" },
   { address := 0x0114, name := "daily_power_consumption",
     description := "Daily Power Consumption", unit := "Wh" }]

/-- `HISTORICAL_STATS_REGISTERS`, in source order. -/
def HISTORICAL_STATS_REGISTERS : List RegisterDefinition :=
  [{ address := 0x0115, name := "total_operating_days",
     description := "Total Operating Days", unit := "days" },
   { address := 0x0116, name := "total_battery_over_discharges",
     description := "Total Battery Over-discharges" },
   { address := 0x0117, name := "total_battery_full_charges",
     description := "Total Battery Full Charges" }]

/-- `CONTROL_REGISTERS`, in source order. -/
def CONTROL_REGISTERS : List RegisterDefinition :=
  [{ address := 0x010A, name := "load_switch",
     description := "Load Switch Control" }]

/-- Minimum of a nonempty list of naturals, 0 for the empty list (used only
under a nonemptiness guard, as the source's `min(...)` is). -/
def listMin : List Nat → Nat
  | [] => 0
  | [a] => a
  | a :: b :: rest => min a (listMin (b :: rest))

/-- Maximum of a list of naturals. -/
def listMax : List Nat → Nat
  | [] => 0
  | a :: rest => max a (listMax rest)

/-- `get_register_range(registers)` from registers.py: `(0, 0)` on an empty
group, else `(min(address), max(address + length) − min(address))`.  The
source picks the entry maximising `address + length` and uses its
`address + length`, which is that maximum. -/
def get_register_range (registers : List RegisterDefinition) : Nat × Nat :=
  if registers.isEmpty then (0, 0)
  else
    let minAddr := listMin (registers.map (·.address))
    let maxEnd := listMax (registers.map fun r => r.address + r.length)
    (minAddr, maxEnd - minAddr)

/-- Collection-order addresses of a group. -/
def groupAddresses (registers : List RegisterDefinition) : List Nat :=
  registers.map (·.address)

/-- Two register entries occupy disjoint address ranges. -/
def rangesDisjoint (r s : RegisterDefinition) : Prop :=
  r.address + r.length ≤ s.address ∨ s.address + s.length ≤ r.address

instance (r s : RegisterDefinition) : Decidable (rangesDisjoint r s) := by
  unfold rangesDisjoint; infer_instance

/-- The 11 register values of the end-to-end real-time scenario. -/
def rtVals : List Nat := [85, 132, 15, 0x1405, 125, 2, 25, 125, 8, 50, 1]

/-! Bounds for the CRC accumulator. -/

theorem CRC_TABLE_length : CRC_TABLE.length = 256 := by decide

theorem CRC_TABLE_lt (i : Nat) : CRC_TABLE.getD i 0 < 65536 := by
  have hall : CRC_TABLE.all (· < 65536) = true := by decide
  rw [List.all_eq_true] at hall
  by_cases hi : i < CRC_TABLE.length
  · have hmem : CRC_TABLE.getD i 0 ∈ CRC_TABLE := by
      rw [List.getD_eq_getElem _ _ hi]
      exact CRC_TABLE.getElem_mem hi
    simpa using hall _ hmem
  · rw [List.getD_eq_default _ _ (Nat.le_of_not_lt hi)]
    norm_num

theorem crcStep_lt (crc byte : Nat) (h : crc < 65536) :
    crcStep crc byte < 65536 := by
  have h1 : crc >>> 8 < 65536 := by
    rw [Nat.shiftRight_eq_div_pow]
    exact Nat.lt_of_le_of_lt (Nat.div_le_self _ _) h
  have h2 : CRC_TABLE.getD ((crc ^^^ byte) &&& 0xFF) 0 < 65536 :=
    CRC_TABLE_lt _
  have h2p : (65536 : Nat) = 2 ^ 16 := by norm_num
  rw [h2p] at h1 h2 ⊢
  exact Nat.xor_lt_two_pow h1 h2

theorem crc_foldl_lt (data : List Nat) (acc : Nat) (h : acc < 65536) :
    data.foldl crcStep acc < 65536 := by
  induction data generalizing acc with
  | nil => simpa using h
  | cons b rest ih => exact ih _ (crcStep_lt acc b h)

theorem calculate_crc16_lt (data : List Nat) : calculate_crc16 data < 65536 :=
  crc_foldl_lt data 0xFFFF (by norm_num)

/-- Round trip: appending the little-endian CRC of a nonempty message makes
`verify_crc` succeed. -/
theorem verify_crc_append (m : List Nat) (hm : m ≠ []) :
    verify_crc (m ++ le16 (calculate_crc16 m)) = true := by
  have hlen : 1 ≤ m.length := List.length_pos.mpr hm
  have hclt : calculate_crc16 m < 65536 := calculate_crc16_lt m
  have hlen2 : (m ++ le16 (calculate_crc16 m)).length = m.length + 2 := by
    simp [le16]
  simp only [verify_crc, hlen2]
  rw [if_neg (by omega)]
  have hsub : m.length + 2 - 2 = m.length := by omega
  rw [hsub, List.take_left, List.drop_left]
  simp only [le16, List.getD_cons_zero, List.getD_cons_succ]
  rw [Nat.mod_eq_of_lt (show calculate_crc16 m / 256 < 256 by omega),
    Nat.mod_add_div]
  simp

/-! Shared transaction lemmas. -/

theorem flatten_be16_length (vs : List Nat) :
    ((vs.map be16).flatten).length = 2 * vs.length := by
  induction vs with
  | nil => simp
  | cons w rest ih => simp [be16, ih]; omega

/-- Normal-path success of `_send_request`: a response whose function code
has its high bit clear, whose payload length matches the byte-count header
byte, and whose CRC verifies, yields exactly the payload, with the whole
response consumed. -/
theorem sendRequest_normal_ok (did fc bc : Nat) (payload cs : List Nat)
    (hfc : fc &&& 0x80 = 0) (hbc : payload.length = bc) (hcs : cs.length = 2)
    (hv : verify_crc ([did, fc, bc] ++ (payload ++ cs)) = true) :
    sendRequest ([did, fc, bc] ++ (payload ++ cs)) = (.ok payload, []) := by
  have hlen : (payload ++ cs).length = bc + 2 := by
    simp [hbc, hcs]
  have htake : List.take (bc + 2) (payload ++ cs) = payload ++ cs := by
    rw [← hlen]; exact List.take_length _
  have hdrop : List.drop (bc + 2) (payload ++ cs) = [] := by
    rw [← hlen]; exact List.drop_length _
  have htakebc : List.take bc (payload ++ cs) = payload := by
    subst hbc; exact List.take_left payload cs
  simp only [sendRequest, sread, List.cons_append, List.nil_append,
    List.take_succ_cons, List.take_zero, List.drop_succ_cons, List.drop_zero,
    List.getD_cons_zero, List.getD_cons_succ, List.length_cons,
    List.length_nil, hfc, htake, hdrop, htakebc, hlen]
  norm_num
  intro hfalse
  have hv' := hv
  simp only [List.cons_append, List.nil_append] at hv'
  simp [hfalse] at hv'

/-- `mkReadResponse` is accepted by `_send_request` and returns the packed
register words. -/
theorem sendRequest_mkReadResponse (did fc : Nat) (vs : List Nat)
    (hfc : fc &&& 0x80 = 0) :
    sendRequest (mkReadResponse did fc vs) =
      (.ok ((vs.map be16).flatten), []) := by
  have hb : mkReadResponse did fc vs =
      [did, fc, 2 * vs.length] ++
        (((vs.map be16).flatten) ++
          le16 (calculate_crc16
            ([did, fc, 2 * vs.length] ++ (vs.map be16).flatten))) := by
    simp [mkReadResponse, List.append_assoc]
  rw [hb]
  apply sendRequest_normal_ok
  · exact hfc
  · exact flatten_be16_length vs
  · simp [le16]
  · rw [← List.append_assoc]
    exact verify_crc_append _ (by simp)

/-! Claims. -/

/-- C1 (counterexample): at the explicit input `m = []` the claimed
round-trip fails: the buffer `crc16([])` little-endian is the 2-byte
`[0xFF, 0xFF]` and `verify_crc` returns `false`, not `true`. -/
theorem C1_counterexample :
    verify_crc ([] ++ le16 (calculate_crc16 [])) = false := by decide

/-- C1 (amended): appending the little-endian 16-bit encoding of
`calculate_crc16 m` to `m` and passing the result to `verify_crc` returns
`true` for every nonempty byte sequence `m`; for the empty `m` the buffer is
2 bytes long, below the fail-closed minimum of 3, and `verify_crc` returns
`false`. -/
theorem C1_crc_round_trip (m : List Nat) :
    verify_crc (m ++ le16 (calculate_crc16 m)) = !m.isEmpty := by
  cases m with
  | nil => decide
  | cons a rest =>
    simpa using verify_crc_append (a :: rest) (by simp)

/-- C3: for every device id and function code below 256 and start address
and count below 65536 (the domain `struct.pack(">BBHH", ...)` accepts), the
built read-request frame is the 6 bytes device id, function code, big-endian
start address, big-endian count, followed by the CRC16 of those 6 bytes in
little-endian order, 8 bytes in all; in particular for device id 1, function
code 0x03, start address 0x0100, count 11 the first 6 bytes are exactly
`01 03 01 00 00 0B` followed by the little-endian CRC16 of those 6 bytes. -/
theorem C3_build_request :
    (∀ did fc sa cnt : Nat, did < 256 → fc < 256 → sa < 65536 → cnt < 65536 →
      build_request did fc sa cnt =
        [did, fc, sa / 256, sa % 256, cnt / 256, cnt % 256] ++
          le16 (calculate_crc16
            [did, fc, sa / 256, sa % 256, cnt / 256, cnt % 256]) ∧
      (build_request did fc sa cnt).length = 8) ∧
    build_request 1 0x03 0x0100 11 =
      [0x01, 0x03, 0x01, 0x00, 0x00, 0x0B] ++
        le16 (calculate_crc16 [0x01, 0x03, 0x01, 0x00, 0x00, 0x0B]) := by
  constructor
  · intro did fc sa cnt h1 h2 h3 h4
    have e1 : did % 256 = did := Nat.mod_eq_of_lt h1
    have e2 : fc % 256 = fc := Nat.mod_eq_of_lt h2
    have e3 : sa / 256 % 256 = sa / 256 := Nat.mod_eq_of_lt (by omega)
    have e5 : cnt / 256 % 256 = cnt / 256 := Nat.mod_eq_of_lt (by omega)
    refine ⟨by simp [build_request, e1, e2, e3, e5], ?_⟩
    simp [build_request, le16]
  · decide

/-- C3 witness: the general frame shape instantiated at device id 1,
function code 0x03, start address 0x0100, count 11. -/
theorem C3_witness :
    build_request 1 0x03 0x0100 11 =
      [1, 3, 1, 0, 0, 11] ++ le16 (calculate_crc16 [1, 3, 1, 0, 0, 11]) ∧
    (build_request 1 0x03 0x0100 11).length = 8 := by
  have h := C3_build_request.1 1 0x03 0x0100 11 (by decide) (by decide)
    (by decide) (by decide)
  exact ⟨h.1.trans (by decide), h.2⟩

/-- C6: for every 16-bit packed temperature word the decoder assigns the
high byte (`w / 256`) to the controller temperature and the low byte
(`w % 256`) to the battery temperature, each reinterpreted as signed 8-bit
two's-complement (`byte > 127 ⇒ byte − 256`); 0x0A05 decodes to controller
10 and battery 5, and 0xFE05 to controller −2 and battery 5, also through
`decodeRealtime`'s word 4. -/
theorem C6_packed_temperature :
    (∀ w : Nat, w < 65536 →
      toSigned8 (controller_temp_raw w) =
        (if w / 256 > 127 then (w / 256 : Int) - 256 else (w / 256 : Int)) ∧
      toSigned8 (battery_temp_raw w) =
        (if w % 256 > 127 then (w % 256 : Int) - 256 else (w % 256 : Int))) ∧
    (decodeRealtime
      [0, 0, 0, 0x0A05, 0, 0, 0, 0, 0, 0, 0]).controller_temperature = 10 ∧
    (decodeRealtime
      [0, 0, 0, 0x0A05, 0, 0, 0, 0, 0, 0, 0]).battery_temperature = 5 ∧
    (decodeRealtime
      [0, 0, 0, 0xFE05, 0, 0, 0, 0, 0, 0, 0]).controller_temperature = -2 ∧
    (decodeRealtime
      [0, 0, 0, 0xFE05, 0, 0, 0, 0, 0, 0, 0]).battery_temperature = 5 := by
  refine ⟨?_, by decide, by decide, by decide, by decide⟩
  intro w hw
  have hc : controller_temp_raw w = w / 256 := by
    unfold controller_temp_raw
    rw [Nat.shiftRight_eq_div_pow,
      show (0xFF : Nat) = 2 ^ 8 - 1 from rfl,
      Nat.and_pow_two_sub_one_eq_mod]
    have : w / 2 ^ 8 < 2 ^ 8 := by norm_num; omega
    rw [Nat.mod_eq_of_lt this]
    norm_num
  have hb : battery_temp_raw w = w % 256 := by
    unfold battery_temp_raw
    rw [show (0xFF : Nat) = 2 ^ 8 - 1 from rfl,
      Nat.and_pow_two_sub_one_eq_mod]
  rw [hc, hb]
  exact ⟨rfl, rfl⟩

/-- C6 witness: the general byte-split statement instantiated at the
concrete word 0x1405 (controller 20, battery 5). -/
theorem C6_witness :
    toSigned8 (controller_temp_raw 0x1405) = 20 ∧
    toSigned8 (battery_temp_raw 0x1405) = 5 := by
  have h := C6_packed_temperature.1 0x1405 (by decide)
  exact ⟨h.1.trans (by decide), h.2.trans (by decide)⟩

/-- C10 (implicit): `_send_request` never reads the client's configured
device id or the function code it sent (the model takes neither as input,
mirroring the source, which references only the response bytes); every
CRC-valid normal response — any device-id byte `did`, any echoed function
code `fc` with the 0x80 bit clear — is accepted and its payload returned. -/
theorem C10_accepts_any_device_id :
    ∀ did fc : Nat, ∀ payload : List Nat, fc &&& 0x80 = 0 →
      sendRequest ([did, fc, payload.length] ++
          (payload ++
            le16 (calculate_crc16 ([did, fc, payload.length] ++ payload)))) =
        (.ok payload, []) := by
  intro did fc payload hfc
  apply sendRequest_normal_ok did fc payload.length payload _ hfc rfl
    (by simp [le16])
  rw [← List.append_assoc]
  exact verify_crc_append _ (by simp)

/-- C10 witness: a CRC-valid reply carrying device id 9 (not the requester's
id 1) and function code 3 is accepted and its payload returned. -/
theorem C10_witness :
    sendRequest ([9, 3, 1] ++
        ([7] ++ le16 (calculate_crc16 ([9, 3, 1] ++ [7])))) =
      (.ok [7], []) := by
  have h := C10_accepts_any_device_id 9 3 [7] (by decide)
  exact h

/-- C4: when the response function-code byte has bit 0x80 set, the third
header byte is taken as an exception code (not a byte count), exactly two
further checksum bytes are consumed from the transport, and the call fails
with the Modbus exception carrying the human-readable message for that code;
a response with function code 0x83 and exception byte 0x02 makes
`read_registers` fail with message "Illegal Data Address" (function code
masked to 0x03), and any code outside the mapping table yields
"Unknown Exception (0x..)" with the code rendered as two uppercase hex
digits. -/
theorem C4_exception_response :
    (∀ did fc ec : Nat, ∀ rest : List Nat, fc &&& 0x80 ≠ 0 →
      sendRequest ([did, fc, ec] ++ rest) =
        (.error (.modbus (get_modbus_exception_message ec) (fc &&& 0x7F) ec),
          rest.drop 2)) ∧
    (read_registers 1 0x0100 11
        ([1, 0x83, 0x02] ++ le16 (calculate_crc16 [1, 0x83, 0x02]))).1 =
      .error (.modbus "Illegal Data Address" 0x03 0x02) ∧
    (∀ code : Nat,
      code ∉ ([0x01, 0x02, 0x03, 0x04, 0x05, 0x06, 0x08, 0x0A, 0x0B] :
        List Nat) →
      get_modbus_exception_message code =
        "Unknown Exception (0x" ++ toHex2 code ++ ")") := by
  refine ⟨?_, by decide, ?_⟩
  · intro did fc ec rest hfc
    simp only [sendRequest, sread, List.cons_append, List.nil_append,
      List.take_succ_cons, List.take_zero, List.drop_succ_cons,
      List.drop_zero, List.getD_cons_zero, List.getD_cons_succ,
      List.length_cons, List.length_nil]
    norm_num [hfc]
  · intro code hc
    simp only [List.mem_cons, List.not_mem_nil, or_false, not_or] at hc
    obtain ⟨h1, h2, h3, h4, h5, h6, h8, hA, hB⟩ := hc
    simp [get_modbus_exception_message, h1, h2, h3, h4, h5, h6, h8, hA, hB]

/-- C4 witness: the exception framing applied at a concrete transport
buffer (two checksum bytes consumed, one stale byte left), and the fallback
message at the unmapped code 0x07. -/
theorem C4_witness :
    sendRequest [1, 0x83, 0x02, 7, 7, 9] =
      (.error (.modbus "Illegal Data Address" 0x03 0x02), [9]) ∧
    get_modbus_exception_message 0x07 = "Unknown Exception (0x07)" := by
  constructor
  · exact (C4_exception_response.1 1 0x83 0x02 [7, 7, 9] (by decide)).trans
      (by decide)
  · exact (C4_exception_response.2.2 0x07 (by decide)).trans (by decide)

/-- C5: on the non-exception path, `_send_request` fails with a timeout when
fewer than 3 header bytes arrive; reads exactly `byte_count + 2` further
bytes and fails with a timeout when fewer arrive; fails with a CRC error
when verification of header+payload+checksum fails; and on success returns
exactly the `byte_count` payload bytes, stripping device id, function code,
byte count and checksum. -/
theorem C5_normal_path :
    (∀ rx : List Nat, rx.length < 3 →
      sendRequest rx = (.error .timeout, rx.drop 3)) ∧
    (∀ did fc bc : Nat, ∀ rest : List Nat, fc &&& 0x80 = 0 →
      rest.length < bc + 2 →
      sendRequest ([did, fc, bc] ++ rest) =
        (.error .timeout, rest.drop (bc + 2))) ∧
    (∀ did fc bc : Nat, ∀ rest : List Nat, fc &&& 0x80 = 0 →
      bc + 2 ≤ rest.length →
      verify_crc ([did, fc, bc] ++ rest.take (bc + 2)) = false →
      sendRequest ([did, fc, bc] ++ rest) =
        (.error .crc, rest.drop (bc + 2))) ∧
    (∀ did fc bc : Nat, ∀ payload cs : List Nat, fc &&& 0x80 = 0 →
      payload.length = bc → cs.length = 2 →
      verify_crc ([did, fc, bc] ++ (payload ++ cs)) = true →
      sendRequest ([did, fc, bc] ++ (payload ++ cs)) = (.ok payload, [])) := by
  refine ⟨?_, ?_, ?_, ?_⟩
  · intro rx h
    simp only [sendRequest, sread]
    rw [if_pos (by rw [List.length_take]; omega)]
  · intro did fc bc rest hfc hlen
    simp only [sendRequest, sread, List.cons_append, List.nil_append,
      List.take_succ_cons, List.take_zero, List.drop_succ_cons,
      List.drop_zero, List.getD_cons_zero, List.getD_cons_succ,
      List.length_cons, List.length_nil, hfc]
    rw [if_neg (by norm_num), if_neg (by norm_num),
      if_pos (by rw [List.length_take]; omega)]
  · intro did fc bc rest hfc hlen hv
    have hv' := hv
    simp only [List.cons_append, List.nil_append] at hv'
    simp only [sendRequest, sread, List.cons_append, List.nil_append,
      List.take_succ_cons, List.take_zero, List.drop_succ_cons,
      List.drop_zero, List.getD_cons_zero, List.getD_cons_succ,
      List.length_cons, List.length_nil, hfc]
    rw [if_neg (by norm_num), if_neg (by norm_num),
      if_neg (by rw [List.length_take]; omega), if_neg (by simp [hv'])]
  · intro did fc bc payload cs hfc hbc hcs hv
    exact sendRequest_normal_ok did fc bc payload cs hfc hbc hcs hv

/-- C5 witness: the four branches applied to concrete buffers — a 1-byte
buffer times out, a short payload times out, a 4-byte garbage tail fails
CRC verification, and a CRC-valid response returns exactly its 2-byte
payload with framing stripped. -/
theorem C5_witness :
    sendRequest [1] = (.error .timeout, []) ∧
    sendRequest [1, 3, 2, 0] = (.error .timeout, []) ∧
    sendRequest [1, 3, 2, 9, 9, 9, 9] = (.error .crc, []) ∧
    sendRequest ([1, 3, 2] ++
        ([0, 85] ++ le16 (calculate_crc16 [1, 3, 2, 0, 85]))) =
      (.ok [0, 85], []) := by
  refine ⟨?_, ?_, ?_, ?_⟩
  · exact (C5_normal_path.1 [1] (by decide)).trans (by decide)
  · exact (C5_normal_path.2.1 1 3 2 [0] (by decide) (by decide)).trans
      (by decide)
  · exact (C5_normal_path.2.2.1 1 3 2 [9, 9, 9, 9] (by decide) (by decide)
      (by decide)).trans (by decide)
  · exact C5_normal_path.2.2.2 1 3 2 [0, 85]
      (le16 (calculate_crc16 [1, 3, 2, 0, 85])) (by decide) (by decide)
      (by decide) (by decide)

/-- C7: the decoded load-switch state is on exactly when the raw word
equals 1 — in `decodeRealtime` the eleventh word of the real-time block
drives `load.is_on = (data[10] == 1)` for every block, and `get_load_state`
returns `word == 1` for every well-formed single-register response; raw 0
and raw 2 decode to off, raw 1 to on. -/
theorem C7_load_switch :
    (∀ data : List Nat,
      (decodeRealtime data).load_is_on = (data.getD 10 0 == 1)) ∧
    (∀ w : Nat, w < 65536 →
      (get_load_state 1 (mkReadResponse 1 0x03 [w])).1 = .ok (w == 1)) ∧
    (get_load_state 1 (mkReadResponse 1 0x03 [0])).1 = .ok false ∧
    (get_load_state 1 (mkReadResponse 1 0x03 [1])).1 = .ok true ∧
    (get_load_state 1 (mkReadResponse 1 0x03 [2])).1 = .ok false := by
  refine ⟨fun data => rfl, ?_, by decide, by decide, by decide⟩
  intro w hw
  have hs := sendRequest_mkReadResponse 1 0x03 [w] (by decide)
  have hval : w / 256 % 256 * 256 + w % 256 = w := by omega
  simp [get_load_state, read_registers, hs]
  simp [Except.map, Except.bind, parseWords, be16, hval]

/-- C7 witness: the general single-register statement applied at raw word 5
(off, since 5 is not 1). -/
theorem C7_witness :
    (get_load_state 1 (mkReadResponse 1 0x03 [5])).1 = .ok false := by
  exact (C7_load_switch.2.1 5 (by decide)).trans (by decide)

/-- C2: with a transport carrying a well-formed 11-register response for
the 0x0100 block with values `rtVals`, `read_realtime_data` yields state of
charge 85, battery voltage 13.2, charging current 0.15, controller
temperature 20, battery temperature 5, load voltage 12.5, load current
0.02, load power 25, solar voltage 12.5, solar current 0.08, solar power
50, load on; and on every 11-word block each percent/power/current/voltage
field is the raw word times its scale (1/10 for voltages, 1/100 for
currents, 1 for power and percent). -/
theorem C2_read_realtime :
    (read_realtime_data 1 (mkReadResponse 1 0x03 rtVals)).1 =
      .ok { state_of_charge := 85
            battery_voltage := 132 / 10
            charging_current := 15 / 100
            controller_temperature := 20
            battery_temperature := 5
            load_voltage := 125 / 10
            load_current := 2 / 100
            load_power := 25
            solar_voltage := 125 / 10
            solar_current := 8 / 100
            solar_power := 50
            load_is_on := true } ∧
    (∀ a b c t lv lc lp sv sc sp ls : Nat,
      (decodeRealtime
        [a, b, c, t, lv, lc, lp, sv, sc, sp, ls]).state_of_charge = a ∧
      (decodeRealtime
        [a, b, c, t, lv, lc, lp, sv, sc, sp, ls]).battery_voltage =
          (b : ℚ) * (1 / 10) ∧
      (decodeRealtime
        [a, b, c, t, lv, lc, lp, sv, sc, sp, ls]).charging_current =
          (c : ℚ) * (1 / 100) ∧
      (decodeRealtime
        [a, b, c, t, lv, lc, lp, sv, sc, sp, ls]).load_voltage =
          (lv : ℚ) * (1 / 10) ∧
      (decodeRealtime
        [a, b, c, t, lv, lc, lp, sv, sc, sp, ls]).load_current =
          (lc : ℚ) * (1 / 100) ∧
      (decodeRealtime
        [a, b, c, t, lv, lc, lp, sv, sc, sp, ls]).load_power = lp ∧
      (decodeRealtime
        [a, b, c, t, lv, lc, lp, sv, sc, sp, ls]).solar_voltage =
          (sv : ℚ) * (1 / 10) ∧
      (decodeRealtime
        [a, b, c, t, lv, lc, lp, sv, sc, sp, ls]).solar_current =
          (sc : ℚ) * (1 / 100) ∧
      (decodeRealtime
        [a, b, c, t, lv, lc, lp, sv, sc, sp, ls]).solar_power = sp) := by
  constructor
  · have hs := sendRequest_mkReadResponse 1 0x03 rtVals (by decide)
    have ht1 : toSigned8 (controller_temp_raw 0x1405) = 20 := by decide
    have ht2 : toSigned8 (battery_temp_raw 0x1405) = 5 := by decide
    simp only [read_realtime_data, read_registers, hs]
    norm_num [Except.map, Except.bind, parseWords, be16, decodeRealtime,
      rtVals, ht1, ht2]
  · intro a b c t lv lc lp sv sc sp ls
    exact ⟨rfl, rfl, rfl, rfl, rfl, rfl, rfl, rfl, rfl⟩

/-- C8: in `read_device_info` the three field groups (model, serial number,
hardware/software versions) are decoded independently: each group's result
depends only on its own transport exchange, a read failure in one group
leaves its field(s) at the empty-string default while the others are still
decoded from their own exchanges, and `read_device_info` is a total
function into `DeviceInfo` — no per-field failure propagates. -/
theorem C8_device_info_isolation :
    (∀ did : Nat, ∀ rxM rxM' rxS rxV : List Nat,
      (read_device_info did rxM rxS rxV).serial_number =
        (read_device_info did rxM' rxS rxV).serial_number ∧
      (read_device_info did rxM rxS rxV).hardware_version =
        (read_device_info did rxM' rxS rxV).hardware_version ∧
      (read_device_info did rxM rxS rxV).software_version =
        (read_device_info did rxM' rxS rxV).software_version) ∧
    (∀ did : Nat, ∀ rxM rxS rxS' rxV : List Nat,
      (read_device_info did rxM rxS rxV).model =
        (read_device_info did rxM rxS' rxV).model ∧
      (read_device_info did rxM rxS rxV).hardware_version =
        (read_device_info did rxM rxS' rxV).hardware_version ∧
      (read_device_info did rxM rxS rxV).software_version =
        (read_device_info did rxM rxS' rxV).software_version) ∧
    (∀ did : Nat, ∀ rxM rxS rxV rxV' : List Nat,
      (read_device_info did rxM rxS rxV).model =
        (read_device_info did rxM rxS rxV').model ∧
      (read_device_info did rxM rxS rxV).serial_number =
        (read_device_info did rxM rxS rxV').serial_number) ∧
    (∀ did : Nat, ∀ rxM rxS rxV : List Nat, ∀ e : RError,
      (read_registers did 0x000C 8 rxM).1 = .error e →
      (read_device_info did rxM rxS rxV).model = "") ∧
    (∀ did : Nat, ∀ rxM rxS rxV : List Nat, ∀ e : RError,
      (read_registers did 0x0018 8 rxS).1 = .error e →
      (read_device_info did rxM rxS rxV).serial_number = "") ∧
    (∀ did : Nat, ∀ rxM rxS rxV : List Nat, ∀ e : RError,
      (read_registers did 0x0014 4 rxV).1 = .error e →
      (read_device_info did rxM rxS rxV).hardware_version = "" ∧
      (read_device_info did rxM rxS rxV).software_version = "") := by
  refine ⟨fun did rxM rxM' rxS rxV => ⟨rfl, rfl, rfl⟩,
    fun did rxM rxS rxS' rxV => ⟨rfl, rfl, rfl⟩,
    fun did rxM rxS rxV rxV' => ⟨rfl, rfl⟩, ?_, ?_, ?_⟩
  · intro did rxM rxS rxV e h
    simp [read_device_info, h]
  · intro did rxM rxS rxV e h
    simp [read_device_info, h]
  · intro did rxM rxS rxV e h
    constructor <;> simp [read_device_info, h]

/-- C8 witness: with an empty transport buffer for every exchange, each
read fails with a timeout and every field is left at its default. -/
theorem C8_witness :
    (read_device_info 1 [] [] []).model = "" ∧
    (read_device_info 1 [] [] []).serial_number = "" ∧
    (read_device_info 1 [] [] []).hardware_version = "" := by
  refine ⟨?_, ?_, ?_⟩
  · exact C8_device_info_isolation.2.2.2.1 1 [] [] [] .timeout (by decide)
  · exact C8_device_info_isolation.2.2.2.2.1 1 [] [] [] .timeout (by decide)
  · exact (C8_device_info_isolation.2.2.2.2.2 1 [] [] [] .timeout
      (by decide)).1

/-- C9 (counterexample): the device-info group's addresses in collection
order are 0x000C, 0x0018, 0x0014, 0x0016 — not monotonically increasing
(the entry at 0x0018 precedes the one at 0x0014). -/
theorem C9_counterexample :
    groupAddresses DEVICE_INFO_REGISTERS = [0x000C, 0x0018, 0x0014, 0x0016] ∧
    ¬ List.Pairwise (· < ·) (groupAddresses DEVICE_INFO_REGISTERS) := by
  refine ⟨by decide, by decide⟩

/-- C9 (amended): within every register group the entries' address ranges
`[address, address + length)` are pairwise non-overlapping, and in every
group except device-info (whose collection order is 0x000C, 0x0018, 0x0014,
0x0016) the collection-order addresses are strictly increasing; each
group's span as returned by `get_register_range` equals
max(address + length) − min(address): 20 words from 0x000C for device-info,
10 from 0x0100 for real-time, 10 from 0x010B for daily stats, 3 from 0x0115
for historical stats, and 1 from 0x010A for control. -/
theorem C9_register_map :
    List.Pairwise rangesDisjoint DEVICE_INFO_REGISTERS ∧
    List.Pairwise rangesDisjoint SCC_REGISTERS ∧
    List.Pairwise rangesDisjoint DAILY_STATS_REGISTERS ∧
    List.Pairwise rangesDisjoint HISTORICAL_STATS_REGISTERS ∧
    List.Pairwise rangesDisjoint CONTROL_REGISTERS ∧
    List.Pairwise (· < ·) (groupAddresses SCC_REGISTERS) ∧
    List.Pairwise (· < ·) (groupAddresses DAILY_STATS_REGISTERS) ∧
    List.Pairwise (· < ·) (groupAddresses HISTORICAL_STATS_REGISTERS) ∧
    List.Pairwise (· < ·) (groupAddresses CONTROL_REGISTERS) ∧
    groupAddresses DEVICE_INFO_REGISTERS = [0x000C, 0x0018, 0x0014, 0x0016] ∧
    (get_register_range DEVICE_INFO_REGISTERS).2 =
      listMax (DEVICE_INFO_REGISTERS.map fun r => r.address + r.length) -
        listMin (groupAddresses DEVICE_INFO_REGISTERS) ∧
    (get_register_range SCC_REGISTERS).2 =
      listMax (SCC_REGISTERS.map fun r => r.address + r.length) -
        listMin (groupAddresses SCC_REGISTERS) ∧
    (get_register_range DAILY_STATS_REGISTERS).2 =
      listMax (DAILY_STATS_REGISTERS.map fun r => r.address + r.length) -
        listMin (groupAddresses DAILY_STATS_REGISTERS) ∧
    (get_register_range HISTORICAL_STATS_REGISTERS).2 =
      listMax (HISTORICAL_STATS_REGISTERS.map fun r => r.address + r.length) -
        listMin (groupAddresses HISTORICAL_STATS_REGISTERS) ∧
    (get_register_range CONTROL_REGISTERS).2 =
      listMax (CONTROL_REGISTERS.map fun r => r.address + r.length) -
        listMin (groupAddresses CONTROL_REGISTERS) ∧
    get_register_range DEVICE_INFO_REGISTERS = (0x000C, 20) ∧
    get_register_range SCC_REGISTERS = (0x0100, 10) ∧
    get_register_range DAILY_STATS_REGISTERS = (0x010B, 10) ∧
    get_register_range HISTORICAL_STATS_REGISTERS = (0x0115, 3) ∧
    get_register_range CONTROL_REGISTERS = (0x010A, 1) := by
  and_intros <;> decide

end PyRenogy
